import Mathlib

/-!
Verification of the chunk generation/caching pipeline and the client
spatial streaming cache of a grid-tiled world generator.

Server side (express app): chunk store keyed by (x, y, prompt), a
single-flight generation queue with concurrency cap, rate-limit backoff
and a billing halt flag, and the GET /api/chunk handler.

Client side: ChunkManager zone hysteresis and fade, changePrompt, and
the PredictiveFetcher look-ahead computation.

Machine floats of the source are modelled as exact rationals; SQL rows
as association lists (the primary key makes each key unique, and every
modelled insert goes through the insert-if-absent guard).
-/

namespace WorldGrid

/-- Status column of a chunk row.  The schema default is 'pending'
(never written by the modelled operations, but a row carrying it is
representable, and the handler treats it by falling through to the
insert-if-absent call). -/
inductive ChunkStatus where
  | generating
  | completed
  | error
  | billing_error
  | pending
deriving DecidableEq, Repr

/-- Primary key of the chunks table, also the payload of a generation
job (the source's job objects carry exactly these three fields). -/
structure ChunkId where
  x : Int
  y : Int
  prompt : String
deriving DecidableEq, Repr

/-- One row of the chunks table.  The created_at column is omitted: no
operation modelled here reads it. -/
structure ChunkRow where
  status : ChunkStatus
  operation_id : Option String
  world_id : Option String
  spz_path : Option String
  pano_url : Option String
deriving DecidableEq, Repr

/-- The chunks table. -/
abbrev Store := List (ChunkId × ChunkRow)

/-- SELECT * FROM chunks WHERE x = ? AND y = ? AND prompt = ? (first row). -/
def dbGet : Store → ChunkId → Option ChunkRow
  | [], _ => none
  | (k, r) :: rest, q => if k = q then some r else dbGet rest q

/-- Row written by dbInsertIfAbsent: status 'generating', other columns NULL. -/
def newGeneratingRow : ChunkRow :=
  { status := .generating, operation_id := none, world_id := none,
    spz_path := none, pano_url := none }

/-- dbInsertIfAbsent: read the row, and only when absent INSERT a fresh
generating row.  Returns the new table and true iff a row was created. -/
def dbInsertIfAbsent (store : Store) (k : ChunkId) : Store × Bool :=
  match dbGet store k with
  | some _ => (store, false)
  | none => (store ++ [(k, newGeneratingRow)], true)

/-- UPDATE chunks SET status, operation_id, world_id, spz_path, pano_url
WHERE the key matches (rows with other keys are untouched). -/
def dbUpdate : Store → ChunkId → ChunkStatus →
    Option String → Option String → Option String → Option String → Store
  | [], _, _, _, _, _, _ => []
  | (k1, r1) :: rest, k, status, operationId, worldId, spzPath, panoUrl =>
    if k1 = k then
      (k1, { status := status, operation_id := operationId, world_id := worldId,
             spz_path := spzPath, pano_url := panoUrl }) ::
        dbUpdate rest k status operationId worldId spzPath panoUrl
    else (k1, r1) :: dbUpdate rest k status operationId worldId spzPath panoUrl

/-- DELETE FROM chunks WHERE the key matches. -/
def dbDelete : Store → ChunkId → Store
  | [], _ => []
  | (k, r) :: rest, q => if k = q then dbDelete rest q else (k, r) :: dbDelete rest q

/-- SELECT * ... AND status = 'completed' AND pano_url IS NOT NULL (first row). -/
def dbGetNeighbor : Store → ChunkId → Option ChunkRow
  | [], _ => none
  | (k, r) :: rest, q =>
    if k = q ∧ r.status = .completed ∧ r.pano_url ≠ none then some r
    else dbGetNeighbor rest q

/-- MAX_CONCURRENT_GENERATIONS from the server config. -/
def MAX_CONCURRENT_GENERATIONS : Nat := 1

/-- Process-wide mutable server state: the chunks table plus the queue
globals (activeGenerations, generationQueue, rateLimitBackoffUntil in
milliseconds, apiError halt flag). -/
structure ServerState where
  store : Store
  activeGenerations : Nat
  generationQueue : List ChunkId
  rateLimitBackoffUntil : Nat
  apiError : Option String
deriving DecidableEq, Repr

/-- Fresh server state at startup (stale rows already cleared). -/
def initServerState : ServerState :=
  { store := [], activeGenerations := 0, generationQueue := [],
    rateLimitBackoffUntil := 0, apiError := none }

/-- Result of the synchronous part of drainQueue's while loop. -/
structure DrainOut where
  active : Nat
  queue : List ChunkId
  dispatched : List ChunkId
deriving DecidableEq, Repr

/-- The while loop of drainQueue: while activeGenerations is below the
cap and jobs remain, stop if the current time is before the backoff
deadline, otherwise pop one job and start it (incrementing the active
count; the popped jobs are collected as `dispatched`).  `now` is fixed
for the whole synchronous loop. -/
def drainGo (now backoff : Nat) : Nat → List ChunkId → DrainOut
  | active, [] => { active := active, queue := [], dispatched := [] }
  | active, j :: rest =>
    if active < MAX_CONCURRENT_GENERATIONS then
      if now < backoff then
        { active := active, queue := j :: rest, dispatched := [] }
      else
        let out := drainGo now backoff (active + 1) rest
        { active := out.active, queue := out.queue, dispatched := j :: out.dispatched }
    else { active := active, queue := j :: rest, dispatched := [] }

/-- drainQueue: when halted, discard the whole queue and dispatch
nothing; otherwise run the while loop. -/
def drainQueue (now : Nat) (st : ServerState) : ServerState × List ChunkId :=
  match st.apiError with
  | some _ => ({ st with generationQueue := [] }, [])
  | none =>
    let out := drainGo now st.rateLimitBackoffUntil st.activeGenerations st.generationQueue
    ({ st with activeGenerations := out.active, generationQueue := out.queue },
     out.dispatched)

/-- enqueueGeneration: no-op when a job with the same key string is
already queued (the key string x,y,prompt is injective on the triple
because integer decimal numerals contain no comma), otherwise push the
job and drain. -/
def enqueueGeneration (j : ChunkId) (now : Nat) (st : ServerState) :
    ServerState × List ChunkId :=
  if j ∈ st.generationQueue then (st, [])
  else drainQueue now { st with generationQueue := st.generationQueue ++ [j] }

/-- The apiError message written on a 402 provider failure. -/
def API_ERROR_402 : String := "HTTP 402 — Payment Required (out of API credits)"

/-- Outcome of one generation job as observed at the end of
generateChunk: either the success path reached its final dbUpdate, or
the catch block classified the failure (is402 and is429 reflect the
tests on the error message / response status). -/
inductive JobOutcome where
  | success (operationId worldId spzPath panoUrl : Option String)
  | failure (is402 is429 : Bool)
deriving DecidableEq, Repr

/-- State change performed by the tail of generateChunk: the success
path persists status completed with its asset references; the catch
block sets the halt flag on 402 (or the backoff deadline on 429) and
persists status billing_error for 402, error otherwise, with NULL
columns. -/
def generateChunkFinish (j : ChunkId) (o : JobOutcome) (now : Nat)
    (st : ServerState) : ServerState :=
  match o with
  | .success opId wId spz pano =>
    { st with store := dbUpdate st.store j .completed opId wId spz pano }
  | .failure is402 is429 =>
    let st1 :=
      if is402 then { st with apiError := some API_ERROR_402 }
      else if is429 then { st with rateLimitBackoffUntil := now + 60 * 1000 }
      else st
    { st1 with
      store := dbUpdate st1.store j (if is402 then .billing_error else .error)
        none none none none }

/-- The .finally handler of a dispatched job: apply the job's own state
change, decrement the active count and re-invoke drainQueue. -/
def jobFinally (j : ChunkId) (o : JobOutcome) (now : Nat) (st : ServerState) :
    ServerState × List ChunkId :=
  let st1 := generateChunkFinish j o now st
  drainQueue now { st1 with activeGenerations := st1.activeGenerations - 1 }

/-- Events that mutate the queue state: an enqueueGeneration call, the
setTimeout re-check scheduled during backoff, and the completion
(.finally) of a previously dispatched job, each stamped with the
current time in milliseconds. -/
inductive QEvent where
  | enqueue (j : ChunkId) (now : Nat)
  | timerDrain (now : Nat)
  | jobDone (j : ChunkId) (outcome : JobOutcome) (now : Nat)
deriving DecidableEq, Repr

/-- One event step; the second component lists the jobs dispatched into
execution by the drain triggered by this event. -/
def stepDispatch (st : ServerState) (e : QEvent) : ServerState × List ChunkId :=
  match e with
  | .enqueue j now => enqueueGeneration j now st
  | .timerDrain now => drainQueue now st
  | .jobDone j o now => jobFinally j o now st

/-- Run a sequence of events. -/
def runEvents (evs : List QEvent) (st : ServerState) : ServerState :=
  evs.foldl (fun s e => (stepDispatch s e).1) st

/-- n sequential dbInsertIfAbsent calls for the same key (the server is
single threaded, so racing requests execute their inserts one after the
other); collects each call's boolean result. -/
def insertRace (k : ChunkId) : Nat → Store → Store × List Bool
  | 0, s => (s, [])
  | n + 1, s =>
    let p := dbInsertIfAbsent s k
    let q := insertRace k n p.1
    (q.1, p.2 :: q.2)

/-- Rows kept by DELETE FROM chunks WHERE status = 'billing_error'. -/
def deleteBillingRows : Store → Store
  | [] => []
  | (k, r) :: rest =>
    if r.status = ChunkStatus.billing_error then deleteBillingRows rest
    else (k, r) :: deleteBillingRows rest

/-- POST /api/clear-error: only when the halt flag is set, clear it and
delete the billing_error rows. -/
def clearError (st : ServerState) : ServerState :=
  match st.apiError with
  | some _ =>
    { st with apiError := none, store := deleteBillingRows st.store }
  | none => st

/-- JSON body of an HTTP reply, restricted to the fields the chunk
endpoint writes. -/
structure HttpResponse where
  code : Nat
  status : Option String
  spzUrl : Option String
  error : Option String
deriving DecidableEq, Repr

/-- Observable store/queue operations performed while serving one
request (used to state that a request performs no lookup, insertion or
enqueue). -/
inductive Action where
  | lookup (k : ChunkId)
  | delete (k : ChunkId)
  | insert (k : ChunkId)
  | enqueue (k : ChunkId)
deriving DecidableEq, Repr

/-- Key named by a request action. -/
def actionChunkId : Action → ChunkId
  | .lookup k => k
  | .delete k => k
  | .insert k => k
  | .enqueue k => k

/-- Reply, post-state and action trace of one request. -/
structure HandlerResult where
  resp : HttpResponse
  state : ServerState
  actions : List Action
deriving DecidableEq, Repr

/-- Tail of the GET /api/chunk handler: dbInsertIfAbsent, and on a
fresh insert enqueueGeneration and the started reply, otherwise the
generating reply. -/
def insertAndEnqueue (k : ChunkId) (now : Nat) (st : ServerState)
    (acts : List Action) : HandlerResult :=
  match dbInsertIfAbsent st.store k with
  | (store1, true) =>
    let st1 := { st with store := store1 }
    let st2 := (enqueueGeneration k now st1).1
    { resp := { code := 200, status := some "started", spzUrl := none, error := none },
      state := st2,
      actions := acts ++ [Action.insert k, Action.enqueue k] }
  | (store1, false) =>
    { resp := { code := 200, status := some "generating", spzUrl := none, error := none },
      state := { st with store := store1 },
      actions := acts }

/-- GET /api/chunk after x and y parsed to integers: 503 when the
provider credential is unset, 402 when halted, else dispatch on the
existing row's status; an error row is deleted and regenerated, an
unrecognized status falls through to the insert-if-absent call. -/
def apiChunkParsed (cfg : Bool) (x y : Int) (prompt : String) (now : Nat)
    (st : ServerState) : HandlerResult :=
  if cfg = false then
    { resp := { code := 503, status := some "error", spzUrl := none,
                error := some "WORLDLABS_API_KEY not configured" },
      state := st, actions := [] }
  else
    match st.apiError with
    | some e =>
      { resp := { code := 402, status := some "billing_error", spzUrl := none,
                  error := some e },
        state := st, actions := [] }
    | none =>
      let k : ChunkId := { x := x, y := y, prompt := prompt }
      match dbGet st.store k with
      | some row =>
        match row.status with
        | .completed =>
          { resp := { code := 200, status := some "completed", spzUrl := row.spz_path,
                      error := none },
            state := st, actions := [Action.lookup k] }
        | .generating =>
          { resp := { code := 200, status := some "generating", spzUrl := none,
                      error := none },
            state := st, actions := [Action.lookup k] }
        | .billing_error =>
          { resp := { code := 402, status := some "billing_error", spzUrl := none,
                      error := some "API billing error — out of credits" },
            state := st, actions := [Action.lookup k] }
        | .error =>
          insertAndEnqueue k now { st with store := dbDelete st.store k }
            [Action.lookup k, Action.delete k]
        | .pending =>
          insertAndEnqueue k now st [Action.lookup k]
      | none => insertAndEnqueue k now st [Action.lookup k]

/-- Javascript parseInt with radix 10 on the leading digits of a list
of characters: none when no digit is found. -/
def leadingDigitsVal (cs : List Char) : Option Nat :=
  let ds := cs.takeWhile (fun c => c.isDigit)
  if ds = [] then none
  else some (ds.foldl (fun a c => a * 10 + (c.toNat - Char.toNat '0')) 0)

/-- Javascript parseInt(s, 10): skip leading whitespace, accept one
optional sign, then read the longest digit run; NaN (none) when no
digit follows. -/
def jsParseInt (s : String) : Option Int :=
  let cs := s.data.dropWhile (fun c => c = ' ' ∨ c = '\t' ∨ c = '\n' ∨ c = '\r')
  match cs with
  | '-' :: rest => (leadingDigitsVal rest).map (fun n => -(n : Int))
  | '+' :: rest => (leadingDigitsVal rest).map (fun n => (n : Int))
  | rest => (leadingDigitsVal rest).map (fun n => (n : Int))

/-- parseInt applied to a possibly absent query parameter (an absent
parameter parses to NaN). -/
def jsParseIntOf (q : Option String) : Option Int := q.bind jsParseInt

/-- Default prompt substituted by req.query.prompt || "..." (the or
also fires on the empty string, which is falsy). -/
def DEFAULT_PROMPT : String := "A beautiful natural landscape"

/-- Value of the prompt variable in the handler. -/
def resolvePrompt : Option String → String
  | none => DEFAULT_PROMPT
  | some s => if s = "" then DEFAULT_PROMPT else s

/-- GET /api/chunk on the raw query strings: parseInt both coordinates,
default the prompt, and reply 400 before any store access when either
parse is NaN. -/
def apiChunk (cfg : Bool) (xq yq pq : Option String) (now : Nat)
    (st : ServerState) : HandlerResult :=
  match jsParseIntOf xq, jsParseIntOf yq with
  | some x, some y => apiChunkParsed cfg x y (resolvePrompt pq) now st
  | _, _ =>
    { resp := { code := 400, status := none, spzUrl := none,
                error := some "x and y must be integers" },
      state := st, actions := [] }

/-- Direction label of a neighbor relative to the target chunk, as used
by the edge extraction (left = west, right = east, below = south,
above = north). -/
inductive EdgeDir where
  | left
  | right
  | below
  | above
deriving DecidableEq, Repr

/-- NEIGHBOR_OFFSETS in source order: west, east, south, north. -/
def NEIGHBOR_OFFSETS : List (Int × Int × EdgeDir) :=
  [(-1, 0, EdgeDir.left), (1, 0, EdgeDir.right),
   (0, -1, EdgeDir.below), (0, 1, EdgeDir.above)]

/-- Crop rectangle passed to the image extract call. -/
structure CropRect where
  left : Nat
  top : Nat
  width : Nat
  height : Nat
deriving DecidableEq, Repr

/-- Region cropped from a neighbor's panorama of width w and height h:
Math.floor on the proportional offsets (0.75 and 0.25 are exact in
floats; 0.3 and 0.7 are idealized to exact rationals). -/
def extractRegion (dir : EdgeDir) (w h : Nat) : CropRect :=
  match dir with
  | .left => { left := 3 * w / 4, top := 0, width := w - 3 * w / 4, height := h }
  | .right => { left := 0, top := 0, width := w / 4, height := h }
  | .below => { left := 0, top := 0, width := w, height := 3 * h / 10 }
  | .above => { left := 0, top := 7 * h / 10, width := w, height := h - 7 * h / 10 }

/-- The loop of getEdgeImageForChunk over an offset list.  `extract`
abstracts the network fetch plus crop of extractEdgeImage: none stands
for a thrown and caught extraction failure (the loop then continues
with the next neighbor).  The source also re-checks pano_url and the
produced base64 string for truthiness, so empty strings are skipped. -/
def edgeSearch (store : Store) (extract : String → EdgeDir → Option String)
    (x y : Int) (prompt : String) : List (Int × Int × EdgeDir) → Option String
  | [] => none
  | (dx, dy, dir) :: rest =>
    match dbGetNeighbor store { x := x + dx, y := y + dy, prompt := prompt } with
    | some nb =>
      match nb.pano_url with
      | some url =>
        if url = "" then edgeSearch store extract x y prompt rest
        else
          match extract url dir with
          | some b64 =>
            if b64 = "" then edgeSearch store extract x y prompt rest
            else some b64
          | none => edgeSearch store extract x y prompt rest
      | none => edgeSearch store extract x y prompt rest
    | none => edgeSearch store extract x y prompt rest

/-- getEdgeImageForChunk: probe the four neighbors in source order and
return the first successfully extracted strip, none when every
candidate fails. -/
def getEdgeImageForChunk (store : Store)
    (extract : String → EdgeDir → Option String) (x y : Int) (prompt : String) :
    Option String :=
  edgeSearch store extract x y prompt NEIGHBOR_OFFSETS

/-- A neighbor candidate contributes no seed: either there is no
completed row with a panorama at that key, or its panorama url is
empty, or extraction fails or produces the empty string. -/
def seedFails (store : Store) (extract : String → EdgeDir → Option String)
    (k : ChunkId) (dir : EdgeDir) : Prop :=
  ∀ nb, dbGetNeighbor store k = some nb →
    ∀ url, nb.pano_url = some url → url ≠ "" →
      ∀ b, extract url dir = some b → b = ""

/-- Hysteresis zone thresholds and fade rate of the client. -/
def ZONE_ACTIVE : Nat := 1

/-- Chebyshev radius beyond which a resident chunk is purged. -/
def ZONE_CACHED : Nat := 3

/-- FADE_SPEED, alpha units per second. -/
def FADE_SPEED : ℚ := 6

/-- Chebyshev (chessboard) distance between two chunk coordinates. -/
def chebyshev (ax ay bx bz : Int) : Nat :=
  max (ax - bx).natAbs (ay - bz).natAbs

/-- Zone label of a resident client chunk. -/
inductive Zone where
  | active
  | cached
  | purged
deriving DecidableEq, Repr

/-- Desired alpha of a resident chunk at Chebyshev distance d. -/
def targetFade (d : Nat) : ℚ := if d ≤ ZONE_ACTIVE then 1 else 0

/-- One frame of the fade update: approach the target at FADE_SPEED
bounded by the elapsed time, clamped at the target. -/
def fadeStep (fade target dt : ℚ) : ℚ :=
  if fade < target then min target (fade + FADE_SPEED * dt)
  else if target < fade then max target (fade - FADE_SPEED * dt)
  else fade

/-- Outcome of the per-chunk body of ChunkManager.update for one
resident, non-loading chunk. -/
inductive FrameResult where
  | purged
  | resident (fade : ℚ) (zone : Zone) (visible : Bool)
deriving DecidableEq, Repr

/-- Per-chunk body of ChunkManager.update: purge beyond ZONE_CACHED,
otherwise fade toward the target alpha, derive visibility from
fade > 0.001, and settle the zone label only at the 0.999 / 0.001
thresholds. -/
def updateChunkFrame (d : Nat) (fade : ℚ) (zone : Zone) (dt : ℚ) : FrameResult :=
  if ZONE_CACHED < d then FrameResult.purged
  else
    let fade1 := fadeStep fade (targetFade d) dt
    let visible := decide ((1 : ℚ) / 1000 < fade1)
    let zone1 :=
      if (999 : ℚ) / 1000 ≤ fade1 then Zone.active
      else if fade1 ≤ (1 : ℚ) / 1000 then Zone.cached
      else zone
    FrameResult.resident fade1 zone1 visible

/-- Client chunk object held by the ChunkManager. -/
structure ClientChunk where
  x : Int
  y : Int
  hasMesh : Bool
  zone : Zone
  loading : Bool
deriving DecidableEq, Repr

/-- Client-local state of the ChunkManager (the scene and DOM are
outside the model). -/
structure ChunkManagerState where
  chunks : List ((Int × Int) × ClientChunk)
  pendingLoads : List (Int × Int)
  failedLoads : List ((Int × Int) × Nat)
  wireframes : List (Int × Int)
  billingHalted : Bool
  prompt : String
deriving DecidableEq, Repr

/-- purgeAll: release every resident chunk, wireframe, pending load and
failure cooldown. -/
def purgeAll (m : ChunkManagerState) : ChunkManagerState :=
  { m with chunks := [], pendingLoads := [], failedLoads := [], wireframes := [] }

/-- changePrompt: purge all client objects and switch the prompt; when
billing-halted, also reset the flag and issue POST /api/clear-error,
whose server-side effect is clearError. -/
def changePrompt (m : ChunkManagerState) (srv : ServerState) (newPrompt : String) :
    ChunkManagerState × ServerState :=
  let m1 := { purgeAll m with prompt := newPrompt }
  if m.billingHalted then
    ({ m1 with billingHalted := false }, clearError srv)
  else (m1, srv)

/-- Client constants used by the predictive fetcher. -/
def CHUNK_SIZE : ℚ := 20

/-- Worst-case provider latency in seconds. -/
def WORST_CASE_LATENCY_S : ℚ := 45

/-- Lower clamp of the predicted reach, in chunks. -/
def MIN_PREDICT_DISTANCE : Int := 1

/-- Upper clamp of the predicted reach, in chunks. -/
def MAX_PREDICT_DISTANCE : Int := 2

/-- clamp(ceil(speed * latency / chunkSize), MIN, MAX). -/
def clampedReach (speed : ℚ) : Int :=
  max MIN_PREDICT_DISTANCE
    (min MAX_PREDICT_DISTANCE (Int.ceil (speed * WORST_CASE_LATENCY_S / CHUNK_SIZE)))

/-- Perpendicular spread offsets around each step. -/
def spreadList : List Int := [-1, 0, 1]

/-- Grid coordinate produced for one forward step and one perpendicular
spread: the source rounds via Math.floor(v + 0.5) after walking in
world units and dividing back by the chunk size. -/
def predCoord (fx fz : ℚ) (cx cy : Int) (step : Nat) (spread : Int) : Int × Int :=
  let gx : Int := Int.floor (((cx : ℚ) * CHUNK_SIZE + fx * (step : ℚ) * CHUNK_SIZE) / CHUNK_SIZE + 1 / 2)
  let gz : Int := Int.floor (((cy : ℚ) * CHUNK_SIZE + fz * (step : ℚ) * CHUNK_SIZE) / CHUNK_SIZE + 1 / 2)
  let px : ℚ := -fz
  let pz : ℚ := fx
  (Int.floor ((gx : ℚ) + px * (spread : ℚ) + 1 / 2),
   Int.floor ((gz : ℚ) + pz * (spread : ℚ) + 1 / 2))

/-- Candidate coordinates in loop order: steps 1..reach, each with the
three perpendicular spreads. -/
def predRaw (speed fx fz : ℚ) (cx cy : Int) : List (Int × Int) :=
  ((List.range (clampedReach speed).toNat).map (fun n => n + 1)).flatMap
    (fun step => spreadList.map (fun spread => predCoord fx fz cx cy step spread))

/-- The seen-set deduplication of the source loop (the string key
fx,fy is injective on integer pairs since decimal numerals contain no
comma, so membership in the set of coordinates is equivalent). -/
def dedupeGo : List (Int × Int) → List (Int × Int) → List (Int × Int)
  | [], _ => []
  | c :: rest, seen =>
    if c ∈ seen then dedupeGo rest seen
    else c :: dedupeGo rest (c :: seen)

/-- Recomputation body of PredictiveFetcher.getPredictedChunks: the
four cardinal neighbors below the speed threshold, otherwise the
deduplicated forward cone. -/
def computePrediction (speed fx fz : ℚ) (cx cy : Int) : List (Int × Int) :=
  if speed < 1 / 10 then
    [(cx + 1, cy), (cx - 1, cy), (cx, cy + 1), (cx, cy - 1)]
  else dedupeGo (predRaw speed fx fz cx cy) []

/-- Mutable fields of PredictiveFetcher. -/
structure PredictiveFetcher where
  lastPrediction : List (Int × Int)
  frameCounter : Nat
deriving DecidableEq, Repr

/-- Fetcher state at construction. -/
def initFetcher : PredictiveFetcher :=
  { lastPrediction := [], frameCounter := 0 }

/-- Controller observations consumed by one getPredictedChunks call:
speed is the velocity magnitude, fx and fz the normalized forward
direction, cx and cy the viewer's chunk coordinates. -/
structure PredictInput where
  speed : ℚ
  fx : ℚ
  fz : ℚ
  cx : Int
  cy : Int
deriving DecidableEq, Repr

/-- getPredictedChunks: increment the frame counter, return the stored
prediction unchanged except on every 30th call, which recomputes. -/
def getPredictedChunks (inp : PredictInput) (f : PredictiveFetcher) :
    List (Int × Int) × PredictiveFetcher :=
  let c := f.frameCounter + 1
  if c % 30 ≠ 0 then
    (f.lastPrediction, { lastPrediction := f.lastPrediction, frameCounter := c })
  else
    let r := computePrediction inp.speed inp.fx inp.fz inp.cx inp.cy
    (r, { lastPrediction := r, frameCounter := c })

/-- Results of a sequence of getPredictedChunks calls. -/
def runPredictCalls : List PredictInput → PredictiveFetcher →
    List (List (Int × Int)) × PredictiveFetcher
  | [], f => ([], f)
  | i :: rest, f =>
    let p := getPredictedChunks i f
    let q := runPredictCalls rest p.2
    (p.1 :: q.1, q.2)

/-- A sample job key. -/
def demoJob : ChunkId := { x := 2, y := -1, prompt := "P" }

/-- A burst of enqueue events used to instantiate the queue invariant. -/
def demoEvents : List QEvent :=
  [QEvent.enqueue demoJob 0,
   QEvent.enqueue { x := 3, y := -1, prompt := "P" } 0,
   QEvent.enqueue { x := 4, y := -1, prompt := "P" } 0,
   QEvent.jobDone demoJob (JobOutcome.failure false true) 5]

/-- A server state with one in-flight generating job. -/
def billingDemoState : ServerState :=
  { store := [(demoJob, newGeneratingRow)], activeGenerations := 1,
    generationQueue := [{ x := 3, y := -1, prompt := "P" }],
    rateLimitBackoffUntil := 0, apiError := none }

/-- A backoff state used to instantiate the backoff gate. -/
def backoffDemoState : ServerState :=
  { store := [], activeGenerations := 0, generationQueue := [demoJob],
    rateLimitBackoffUntil := 10, apiError := none }

/-- Store with a completed west neighbor and a completed east neighbor
of (2, -1), both carrying panoramas. -/
def seedDemoStore : Store :=
  [({ x := 1, y := -1, prompt := "P" },
    { status := .completed, operation_id := none, world_id := none,
      spz_path := none, pano_url := some "panoW" }),
   ({ x := 3, y := -1, prompt := "P" },
    { status := .completed, operation_id := none, world_id := none,
      spz_path := none, pano_url := some "panoE" })]

/-- Extraction oracle that fails on the west panorama and succeeds on
the east one. -/
def seedDemoExtract : String → EdgeDir → Option String :=
  fun url _ => if url = "panoE" then some "stripE" else none

/-- Extraction oracle that succeeds on the west panorama. -/
def seedDemoExtractWest : String → EdgeDir → Option String :=
  fun url _ => if url = "panoW" then some "stripW" else none

/-- A billing-halted client. -/
def haltedClient : ChunkManagerState :=
  { chunks := [], pendingLoads := [((0, 0))], failedLoads := [],
    wireframes := [], billingHalted := true, prompt := "old" }

/-- A halted server holding one billing_error row and one completed row. -/
def haltedServer : ServerState :=
  { store := [({ x := 0, y := 0, prompt := "old" },
               { status := .billing_error, operation_id := none, world_id := none,
                 spz_path := none, pano_url := none }),
              ({ x := 1, y := 0, prompt := "old" },
               { status := .completed, operation_id := none, world_id := none,
                 spz_path := some "/chunks/a.spz", pano_url := none })],
    activeGenerations := 0, generationQueue := [], rateLimitBackoffUntil := 0,
    apiError := some "HTTP 402 — Payment Required (out of API credits)" }

/-- A non-halted client with resident state, for the witness. -/
def quietClient : ChunkManagerState :=
  { chunks := [((5, 5), { x := 5, y := 5, hasMesh := true, zone := .active,
                          loading := false })],
    pendingLoads := [((6, 5))], failedLoads := [((7, 5), 100)],
    wireframes := [((6, 5))], billingHalted := false, prompt := "old" }

/-- A controller observation standing still at the origin. -/
def demoPredictInput : PredictInput :=
  { speed := 0, fx := 0, fz := -1, cx := 0, cy := 0 }

/-! Helper lemmas about the store and the queue. -/

theorem dbGet_append_one_self (k : ChunkId) (r : ChunkRow) :
    ∀ s : Store, dbGet s k = none → dbGet (s ++ [(k, r)]) k = some r
  | [], _ => by simp [dbGet]
  | (k1, r1) :: rest, h => by
    by_cases hk : k1 = k
    · simp [dbGet, hk] at h
    · simp only [dbGet, hk, if_false, List.cons_append, if_neg hk] at h ⊢
      exact dbGet_append_one_self k r rest h

theorem dbGet_append_one_other (k k2 : ChunkId) (r : ChunkRow) (hne : k2 ≠ k) :
    ∀ s : Store, dbGet (s ++ [(k, r)]) k2 = dbGet s k2
  | [] => by
    have hk : ¬ k = k2 := fun h => hne h.symm
    simp [dbGet, hk]
  | (k1, r1) :: rest => by
    by_cases hk : k1 = k2
    · simp [dbGet, hk]
    · simp only [List.cons_append, dbGet, if_neg hk]
      exact dbGet_append_one_other k k2 r hne rest

theorem dbGet_dbUpdate_self (k : ChunkId) (status : ChunkStatus)
    (a b c d : Option String) :
    ∀ (s : Store) (r : ChunkRow), dbGet s k = some r →
      dbGet (dbUpdate s k status a b c d) k =
        some { status := status, operation_id := a, world_id := b,
               spz_path := c, pano_url := d }
  | [], r, h => by simp [dbGet] at h
  | (k1, r1) :: rest, r, h => by
    by_cases hk : k1 = k
    · subst hk
      simp [dbUpdate, dbGet]
    · simp only [dbGet, if_neg hk] at h
      simp only [dbUpdate, if_neg hk]
      simp only [dbGet, if_neg hk]
      exact dbGet_dbUpdate_self k status a b c d rest r h

theorem deleteBillingRows_mem (k : ChunkId) (r : ChunkRow) :
    ∀ s : Store, (k, r) ∈ deleteBillingRows s ↔
      ((k, r) ∈ s ∧ r.status ≠ ChunkStatus.billing_error)
  | [] => by simp [deleteBillingRows]
  | (k1, r1) :: rest => by
    by_cases h : r1.status = ChunkStatus.billing_error
    · rw [deleteBillingRows, if_pos h, deleteBillingRows_mem k r rest]
      constructor
      · exact fun hp => ⟨List.mem_cons_of_mem _ hp.1, hp.2⟩
      · rintro ⟨hp, hs⟩
        rcases List.mem_cons.mp hp with heq | hm
        · cases heq; exact absurd h hs
        · exact ⟨hm, hs⟩
    · rw [deleteBillingRows, if_neg h]
      constructor
      · intro hp
        rcases List.mem_cons.mp hp with heq | hm
        · cases heq; exact ⟨List.mem_cons_self _ _, h⟩
        · have := (deleteBillingRows_mem k r rest).mp hm
          exact ⟨List.mem_cons_of_mem _ this.1, this.2⟩
      · rintro ⟨hp, hs⟩
        rcases List.mem_cons.mp hp with heq | hm
        · cases heq; exact List.mem_cons_self _ _
        · exact List.mem_cons_of_mem _ ((deleteBillingRows_mem k r rest).mpr ⟨hm, hs⟩)

theorem drainQueue_fst_store (now : Nat) (st : ServerState) :
    ((drainQueue now st).1).store = st.store := by
  cases h : st.apiError <;> simp [drainQueue, h]

theorem drainQueue_fst_apiError (now : Nat) (st : ServerState) :
    ((drainQueue now st).1).apiError = st.apiError := by
  cases h : st.apiError <;> simp [drainQueue, h]

theorem drainQueue_fst_backoff (now : Nat) (st : ServerState) :
    ((drainQueue now st).1).rateLimitBackoffUntil = st.rateLimitBackoffUntil := by
  cases h : st.apiError <;> simp [drainQueue, h]

theorem drainGo_active_le (now backoff : Nat) :
    ∀ (q : List ChunkId) (a : Nat), a ≤ MAX_CONCURRENT_GENERATIONS →
      (drainGo now backoff a q).active ≤ MAX_CONCURRENT_GENERATIONS
  | [], a, ha => by simpa [drainGo] using ha
  | j :: rest, a, ha => by
    by_cases h1 : a < MAX_CONCURRENT_GENERATIONS
    · by_cases h2 : now < backoff
      · simpa [drainGo, h1, h2] using ha
      · simpa [drainGo, h1, h2] using drainGo_active_le now backoff rest (a + 1) h1
    · simpa [drainGo, h1] using ha

theorem drainGo_active_ge (now backoff : Nat) :
    ∀ (q : List ChunkId) (a : Nat), a ≤ (drainGo now backoff a q).active
  | [], a => by simp [drainGo]
  | j :: rest, a => by
    by_cases h1 : a < MAX_CONCURRENT_GENERATIONS
    · by_cases h2 : now < backoff
      · simp [drainGo, h1, h2]
      · simp only [drainGo, h1, if_true, h2, if_false, if_neg h2, if_pos h1]
        exact le_trans (Nat.le_succ a) (drainGo_active_ge now backoff rest (a + 1))
    · simp [drainGo, h1]

theorem drainGo_backoff_stop (now backoff : Nat) (q : List ChunkId) (a : Nat)
    (h : now < backoff) :
    drainGo now backoff a q = { active := a, queue := q, dispatched := [] } := by
  cases q with
  | nil => simp [drainGo]
  | cons j rest =>
    by_cases h1 : a < MAX_CONCURRENT_GENERATIONS
    · simp [drainGo, h1, h]
    · simp [drainGo, h1]

theorem drainQueue_active_le (now : Nat) (st : ServerState)
    (h : st.activeGenerations ≤ MAX_CONCURRENT_GENERATIONS) :
    ((drainQueue now st).1).activeGenerations ≤ MAX_CONCURRENT_GENERATIONS := by
  cases he : st.apiError with
  | some e => simpa [drainQueue, he] using h
  | none =>
    simp only [drainQueue, he]
    exact drainGo_active_le now st.rateLimitBackoffUntil st.generationQueue
      st.activeGenerations h

theorem drainQueue_active_ge (now : Nat) (st : ServerState) :
    st.activeGenerations ≤ ((drainQueue now st).1).activeGenerations := by
  cases he : st.apiError with
  | some e => simp [drainQueue, he]
  | none =>
    simp only [drainQueue, he]
    exact drainGo_active_ge now st.rateLimitBackoffUntil st.generationQueue
      st.activeGenerations

theorem generateChunkFinish_active (j : ChunkId) (o : JobOutcome) (now : Nat)
    (st : ServerState) :
    (generateChunkFinish j o now st).activeGenerations = st.activeGenerations := by
  cases o with
  | success a b c d => rfl
  | failure is402 is429 => cases is402 <;> cases is429 <;> rfl

theorem stepDispatch_active_le (st : ServerState) (e : QEvent)
    (h : st.activeGenerations ≤ MAX_CONCURRENT_GENERATIONS) :
    ((stepDispatch st e).1).activeGenerations ≤ MAX_CONCURRENT_GENERATIONS := by
  cases e with
  | enqueue j now =>
    by_cases hq : j ∈ st.generationQueue
    · simpa [stepDispatch, enqueueGeneration, hq] using h
    · simp only [stepDispatch, enqueueGeneration, hq, if_neg, if_false,
        not_false_eq_true]
      exact drainQueue_active_le now _ h
  | timerDrain now => exact drainQueue_active_le now st h
  | jobDone j o now =>
    show ((jobFinally j o now st).1).activeGenerations ≤ _
    unfold jobFinally
    apply drainQueue_active_le
    show (generateChunkFinish j o now st).activeGenerations - 1 ≤ _
    calc (generateChunkFinish j o now st).activeGenerations - 1
        ≤ (generateChunkFinish j o now st).activeGenerations := Nat.sub_le _ _
      _ = st.activeGenerations := generateChunkFinish_active j o now st
      _ ≤ MAX_CONCURRENT_GENERATIONS := h

theorem runEvents_active_le :
    ∀ (evs : List QEvent) (st : ServerState),
      st.activeGenerations ≤ MAX_CONCURRENT_GENERATIONS →
      (runEvents evs st).activeGenerations ≤ MAX_CONCURRENT_GENERATIONS
  | [], _, h => h
  | e :: rest, st, h =>
    runEvents_active_le rest ((stepDispatch st e).1) (stepDispatch_active_le st e h)

theorem drainQueue_backoff_stop (now : Nat) (st : ServerState)
    (h : now < st.rateLimitBackoffUntil) :
    (drainQueue now st).2 = [] ∧
      ((drainQueue now st).1).activeGenerations = st.activeGenerations := by
  cases he : st.apiError with
  | some e => simp [drainQueue, he]
  | none =>
    simp [drainQueue, he,
      drainGo_backoff_stop now st.rateLimitBackoffUntil st.generationQueue
        st.activeGenerations h]

/-- C3: under every sequence of enqueue, timer-drain and job-completion
events from startup, the active generation count never exceeds
MAX_CONCURRENT_GENERATIONS (quantifying over all event lists covers
every reachable intermediate state, as each is the end state of a
prefix); a drain at a time strictly before the stored backoff deadline
pops no queued job into execution; and such a drain leaves the
in-flight count untouched — more generally a drain never aborts
in-flight jobs, since it can only increase the active count. -/
theorem activeCap_and_backoffGate :
    (∀ evs : List QEvent,
      (runEvents evs initServerState).activeGenerations ≤
        MAX_CONCURRENT_GENERATIONS) ∧
    (∀ (now : Nat) (st : ServerState), now < st.rateLimitBackoffUntil →
      (drainQueue now st).2 = [] ∧
        ((drainQueue now st).1).activeGenerations = st.activeGenerations) ∧
    (∀ (now : Nat) (st : ServerState),
      st.activeGenerations ≤ ((drainQueue now st).1).activeGenerations) :=
  ⟨fun evs => runEvents_active_le evs initServerState (Nat.zero_le _),
   fun now st h => drainQueue_backoff_stop now st h,
   fun now st => drainQueue_active_ge now st⟩

/-- Witness: a concrete burst of three enqueues plus one rate-limited
completion never pushes the active count past the cap, and a drain at
time 3 against deadline 10 dispatches nothing. -/
theorem activeCap_and_backoffGate_witness :
    (runEvents demoEvents initServerState).activeGenerations ≤
      MAX_CONCURRENT_GENERATIONS ∧
    (drainQueue 3 backoffDemoState).2 = [] :=
  ⟨activeCap_and_backoffGate.1 demoEvents,
   (activeCap_and_backoffGate.2.1 3 backoffDemoState (by decide)).1⟩

/-- C2: when a generation job fails classified as 402, the halt flag is
set to the descriptive billing message and the job's row is persisted
as billing_error; the job's own terminal drain (and any later drain
while halted) discards the whole queue and dispatches nothing; every
subsequent well-formed, credential-configured GET /api/chunk request is
answered 402 with status billing_error and no store access; and
clearError (POST /api/clear-error) resets the flag and deletes exactly
the billing_error rows. -/
theorem billingHalt_pipeline (j : ChunkId) (is429 : Bool) (now : Nat)
    (st : ServerState) (row : ChunkRow)
    (hrow : dbGet st.store j = some row) :
    ((jobFinally j (JobOutcome.failure true is429) now st).1).apiError =
        some API_ERROR_402 ∧
    dbGet ((jobFinally j (JobOutcome.failure true is429) now st).1).store j =
        some { status := ChunkStatus.billing_error, operation_id := none,
               world_id := none, spz_path := none, pano_url := none } ∧
    ((jobFinally j (JobOutcome.failure true is429) now st).1).generationQueue
        = [] ∧
    (jobFinally j (JobOutcome.failure true is429) now st).2 = [] ∧
    (∀ (now2 : Nat) (st2 : ServerState) (e2 : String), st2.apiError = some e2 →
      drainQueue now2 st2 = ({ st2 with generationQueue := [] }, [])) ∧
    (∀ (x y : Int) (prompt : String) (now2 : Nat),
      apiChunkParsed true x y prompt now2
          ((jobFinally j (JobOutcome.failure true is429) now st).1) =
        { resp := { code := 402, status := some "billing_error", spzUrl := none,
                    error := some API_ERROR_402 },
          state := (jobFinally j (JobOutcome.failure true is429) now st).1,
          actions := [] }) ∧
    ((clearError ((jobFinally j (JobOutcome.failure true is429) now st).1)).apiError
        = none) ∧
    (∀ (k2 : ChunkId) (r2 : ChunkRow),
      (k2, r2) ∈
          (clearError ((jobFinally j (JobOutcome.failure true is429) now st).1)).store
        ↔ ((k2, r2) ∈ ((jobFinally j (JobOutcome.failure true is429) now st).1).store
            ∧ r2.status ≠ ChunkStatus.billing_error)) := by
  have hst : jobFinally j (JobOutcome.failure true is429) now st =
      ({ store := dbUpdate st.store j ChunkStatus.billing_error none none none none,
         activeGenerations := st.activeGenerations - 1,
         generationQueue := [],
         rateLimitBackoffUntil := st.rateLimitBackoffUntil,
         apiError := some API_ERROR_402 }, []) := rfl
  rw [hst]
  refine ⟨rfl, ?_, rfl, rfl, ?_, ?_, rfl, ?_⟩
  · exact dbGet_dbUpdate_self j ChunkStatus.billing_error none none none none
      st.store row hrow
  · intro now2 st2 e2 he2
    simp [drainQueue, he2]
  · intro x y prompt now2
    rfl
  · intro k2 r2
    exact deleteBillingRows_mem k2 r2 _

/-- Witness: a 402 failure of the in-flight demo job against a state
with one generating row halts the server and empties the queue. -/
theorem billingHalt_pipeline_witness :
    ((jobFinally demoJob (JobOutcome.failure true false) 7 billingDemoState).1).apiError
        = some API_ERROR_402 ∧
    ((jobFinally demoJob (JobOutcome.failure true false) 7 billingDemoState).1).generationQueue
        = [] :=
  ⟨(billingHalt_pipeline demoJob false 7 billingDemoState newGeneratingRow
      (by decide)).1,
   (billingHalt_pipeline demoJob false 7 billingDemoState newGeneratingRow
      (by decide)).2.2.1⟩

theorem insertRace_present (k : ChunkId) (r : ChunkRow) :
    ∀ (n : Nat) (s : Store), dbGet s k = some r →
      insertRace k n s = (s, List.replicate n false)
  | 0, s, _ => rfl
  | n + 1, s, h => by
    have hins : dbInsertIfAbsent s k = (s, false) := by
      simp [dbInsertIfAbsent, h]
    simp only [insertRace, hins, insertRace_present k r n s h, List.replicate_succ]

theorem insertRace_single_flight (k : ChunkId) (s : Store)
    (h : dbGet s k = none) (n : Nat) :
    insertRace k (n + 1) s =
      (s ++ [(k, newGeneratingRow)], true :: List.replicate n false) := by
  have hins : dbInsertIfAbsent s k = (s ++ [(k, newGeneratingRow)], true) := by
    simp [dbInsertIfAbsent, h]
  have hpres : dbGet (s ++ [(k, newGeneratingRow)]) k = some newGeneratingRow :=
    dbGet_append_one_self k newGeneratingRow s h
  simp only [insertRace, hins,
    insertRace_present k newGeneratingRow n (s ++ [(k, newGeneratingRow)]) hpres]

theorem apiChunkParsed_generating (x y : Int) (prompt : String) (now : Nat)
    (st : ServerState) (happ : st.apiError = none)
    (hrow : dbGet st.store { x := x, y := y, prompt := prompt }
      = some newGeneratingRow) :
    apiChunkParsed true x y prompt now st =
      { resp := { code := 200, status := some "generating", spzUrl := none,
                  error := none },
        state := st,
        actions := [Action.lookup { x := x, y := y, prompt := prompt }] } := by
  simp [apiChunkParsed, happ, hrow, newGeneratingRow]

theorem apiChunkParsed_fresh (x y : Int) (prompt : String) (now : Nat)
    (st : ServerState) (happ : st.apiError = none)
    (habs : dbGet st.store { x := x, y := y, prompt := prompt } = none)
    (hq : { x := x, y := y, prompt := prompt } ∉ st.generationQueue) :
    apiChunkParsed true x y prompt now st =
      { resp := { code := 200, status := some "started", spzUrl := none,
                  error := none },
        state := (drainQueue now
          { st with
            store := st.store ++
              [({ x := x, y := y, prompt := prompt }, newGeneratingRow)],
            generationQueue :=
              st.generationQueue ++ [{ x := x, y := y, prompt := prompt }] }).1,
        actions := [Action.lookup { x := x, y := y, prompt := prompt },
                    Action.insert { x := x, y := y, prompt := prompt },
                    Action.enqueue { x := x, y := y, prompt := prompt }] } := by
  have hins : dbInsertIfAbsent st.store { x := x, y := y, prompt := prompt } =
      (st.store ++ [({ x := x, y := y, prompt := prompt }, newGeneratingRow)],
       true) := by
    simp [dbInsertIfAbsent, habs]
  simp [apiChunkParsed, happ, habs, insertAndEnqueue, hins, enqueueGeneration, hq]

/-- C1: a well-formed GET /api/chunk request on a configured, unhalted
server with no row for its key answers status started, performs exactly
one lookup, one row creation via the insert-if-absent guard and one
enqueueGeneration call; the post-state holds exactly one new generating
row for the key with every other key unchanged; racing callers of
dbInsertIfAbsent on the same key, executed sequentially by the
single-threaded server, see true exactly once and create exactly one
row; and a second identical request observes the generating row and
performs no insert and no enqueue. -/
theorem chunkRequest_singleFlight (x y : Int) (prompt : String) (now now2 : Nat)
    (st : ServerState) (happ : st.apiError = none)
    (habs : dbGet st.store { x := x, y := y, prompt := prompt } = none)
    (hq : { x := x, y := y, prompt := prompt } ∉ st.generationQueue) :
    (apiChunkParsed true x y prompt now st).resp =
      { code := 200, status := some "started", spzUrl := none, error := none } ∧
    (apiChunkParsed true x y prompt now st).actions =
      [Action.lookup { x := x, y := y, prompt := prompt },
       Action.insert { x := x, y := y, prompt := prompt },
       Action.enqueue { x := x, y := y, prompt := prompt }] ∧
    dbGet (apiChunkParsed true x y prompt now st).state.store
      { x := x, y := y, prompt := prompt } = some newGeneratingRow ∧
    (∀ k2 : ChunkId, k2 ≠ { x := x, y := y, prompt := prompt } →
      dbGet (apiChunkParsed true x y prompt now st).state.store k2
        = dbGet st.store k2) ∧
    (∀ n : Nat, insertRace { x := x, y := y, prompt := prompt } (n + 1) st.store =
      (st.store ++ [({ x := x, y := y, prompt := prompt }, newGeneratingRow)],
       true :: List.replicate n false)) ∧
    apiChunkParsed true x y prompt now2 (apiChunkParsed true x y prompt now st).state
      = { resp := { code := 200, status := some "generating", spzUrl := none,
                    error := none },
          state := (apiChunkParsed true x y prompt now st).state,
          actions := [Action.lookup { x := x, y := y, prompt := prompt }] } := by
  have hmain := apiChunkParsed_fresh x y prompt now st happ habs hq
  have hstore : (apiChunkParsed true x y prompt now st).state.store
      = st.store ++ [({ x := x, y := y, prompt := prompt }, newGeneratingRow)] := by
    rw [hmain]
    exact drainQueue_fst_store now _
  have hap : (apiChunkParsed true x y prompt now st).state.apiError = none := by
    rw [hmain]
    rw [drainQueue_fst_apiError now _]
    exact happ
  have hrow : dbGet (apiChunkParsed true x y prompt now st).state.store
      { x := x, y := y, prompt := prompt } = some newGeneratingRow := by
    rw [hstore]
    exact dbGet_append_one_self _ _ st.store habs
  refine ⟨by rw [hmain], by rw [hmain], hrow, ?_, ?_, ?_⟩
  · intro k2 hk2
    rw [hstore]
    exact dbGet_append_one_other _ k2 _ hk2 st.store
  · intro n
    exact insertRace_single_flight _ st.store habs n
  · exact apiChunkParsed_generating x y prompt now2 _ hap hrow

/-- Witness: the Example-1 request (2, -1, "P") against a fresh server
answers started, and two racing inserts on the same key yield one true
then one false with a single created row. -/
theorem chunkRequest_singleFlight_witness :
    (apiChunkParsed true 2 (-1) "P" 0 initServerState).resp =
      { code := 200, status := some "started", spzUrl := none, error := none } ∧
    insertRace { x := 2, y := -1, prompt := "P" } 2 [] =
      ([({ x := 2, y := -1, prompt := "P" }, newGeneratingRow)], [true, false]) := by
  have h := chunkRequest_singleFlight 2 (-1) "P" 0 0 initServerState rfl rfl
    (by simp [initServerState])
  refine ⟨h.1, ?_⟩
  have h2 := h.2.2.2.2.1 1
  simpa [initServerState] using h2

/-- C7 (amended): whenever parseInt of the x or the y query parameter
yields NaN — that is, the parameter is absent or has no leading integer
numeral — the handler replies 400 with an error body and performs no
store lookup, no row insertion and no job enqueue; a parameter that
merely carries trailing characters after an integer prefix (such as
"3.7") is instead accepted as that prefix. -/
theorem badCoord_rejected (cfg : Bool) (xq yq pq : Option String) (now : Nat)
    (st : ServerState)
    (h : jsParseIntOf xq = none ∨ jsParseIntOf yq = none) :
    apiChunk cfg xq yq pq now st =
      { resp := { code := 400, status := none, spzUrl := none,
                  error := some "x and y must be integers" },
        state := st, actions := [] } := by
  rcases hx : jsParseIntOf xq with _ | x
  · unfold apiChunk
    rw [hx]
  · rcases hy : jsParseIntOf yq with _ | y
    · unfold apiChunk
      rw [hx, hy]
    · exfalso
      rcases h with h | h
      · rw [hx] at h
        exact Option.noConfusion h
      · rw [hy] at h
        exact Option.noConfusion h

/-- Witness: a request with x="abc" is rejected with 400 and an empty
action trace. -/
theorem badCoord_rejected_witness :
    apiChunk true (some "abc") (some "0") (some "P") 0 initServerState =
      { resp := { code := 400, status := none, spzUrl := none,
                  error := some "x and y must be integers" },
        state := initServerState, actions := [] } :=
  badCoord_rejected true (some "abc") (some "0") (some "P") 0 initServerState
    (Or.inl (by decide))

/-- C7 counterexample: the request x="3.7", y="0" carries a non-integer
x parameter, yet parseInt accepts its integer prefix 3: the reply is
not a 400, and the handler does perform store work (a lookup, an
insert, an enqueue) keyed at x = 3. -/
theorem badCoord_rejected_counterexample :
    jsParseInt "3.7" = some 3 ∧
    (apiChunk true (some "3.7") (some "0") (some "P") 0 initServerState).resp.code
      ≠ 400 ∧
    (apiChunk true (some "3.7") (some "0") (some "P") 0 initServerState).actions
      ≠ [] := by decide

theorem apiChunkParsed_actions_key (cfg : Bool) (x y : Int) (prompt : String)
    (now : Nat) (st : ServerState) :
    ∀ a ∈ (apiChunkParsed cfg x y prompt now st).actions,
      actionChunkId a = { x := x, y := y, prompt := prompt } := by
  have hIE : ∀ (st2 : ServerState) (acts : List Action),
      (∀ b ∈ acts,
        actionChunkId b = ({ x := x, y := y, prompt := prompt } : ChunkId)) →
      ∀ a ∈ (insertAndEnqueue { x := x, y := y, prompt := prompt }
          now st2 acts).actions,
        actionChunkId a = { x := x, y := y, prompt := prompt } := by
    intro st2 acts hacts a ha
    unfold insertAndEnqueue at ha
    rcases hins : dbInsertIfAbsent st2.store { x := x, y := y, prompt := prompt }
      with ⟨s1, b⟩
    rw [hins] at ha
    cases b
    · exact hacts a ha
    · rcases List.mem_append.mp ha with h1 | h1
      · exact hacts a h1
      · simp only [List.mem_cons, List.mem_singleton] at h1
        rcases h1 with rfl | rfl | h1
        · rfl
        · rfl
        · exact absurd h1 (List.not_mem_nil a)
  intro a ha
  simp only [apiChunkParsed] at ha
  split at ha
  · exact absurd ha (List.not_mem_nil a)
  · split at ha
    · exact absurd ha (List.not_mem_nil a)
    · split at ha
      · split at ha
        · simp only [List.mem_singleton] at ha
          subst ha
          rfl
        · simp only [List.mem_singleton] at ha
          subst ha
          rfl
        · simp only [List.mem_singleton] at ha
          subst ha
          rfl
        · refine hIE _ _ ?_ a ha
          intro b hb
          simp only [List.mem_cons, List.mem_singleton] at hb
          rcases hb with rfl | rfl | hb
          · rfl
          · rfl
          · exact absurd hb (List.not_mem_nil b)
        · refine hIE _ _ ?_ a ha
          intro b hb
          simp only [List.mem_singleton] at hb
          subst hb
          rfl
      · refine hIE _ _ ?_ a ha
        intro b hb
        simp only [List.mem_singleton] at hb
        subst hb
        rfl

/-- C9: a GET /api/chunk request that omits the prompt parameter, or
passes the empty string, behaves exactly like a request carrying the
default prompt "A beautiful natural landscape" — the two handler runs
are equal as functions of the state — and every store or queue action
it performs is keyed on that default prompt. -/
theorem defaultPrompt_shared (cfg : Bool) (xq yq : Option String) (now : Nat)
    (st : ServerState) :
    apiChunk cfg xq yq none now st =
      apiChunk cfg xq yq (some DEFAULT_PROMPT) now st ∧
    apiChunk cfg xq yq (some "") now st =
      apiChunk cfg xq yq (some DEFAULT_PROMPT) now st ∧
    ∀ a ∈ (apiChunk cfg xq yq none now st).actions,
      (actionChunkId a).prompt = DEFAULT_PROMPT := by
  have h1 : resolvePrompt none = DEFAULT_PROMPT := rfl
  have h2 : resolvePrompt (some "") = DEFAULT_PROMPT := by simp [resolvePrompt]
  have h3 : resolvePrompt (some DEFAULT_PROMPT) = DEFAULT_PROMPT := by
    simp [resolvePrompt, DEFAULT_PROMPT]
  refine ⟨?_, ?_, ?_⟩
  · simp only [apiChunk, h1, h3]
  · simp only [apiChunk, h2, h3]
  · intro a ha
    unfold apiChunk at ha
    rcases hx : jsParseIntOf xq with _ | xv
    · rw [hx] at ha
      exact absurd ha (List.not_mem_nil a)
    · rcases hy : jsParseIntOf yq with _ | yv
      · rw [hx, hy] at ha
        exact absurd ha (List.not_mem_nil a)
      · rw [hx, hy] at ha
        have hk := apiChunkParsed_actions_key cfg xv yv (resolvePrompt none)
          now st a ha
        rw [hk]
        exact h1

/-- Witness: with the prompt omitted, the Example-1 request equals the
same request under the default prompt. -/
theorem defaultPrompt_shared_witness :
    apiChunk true (some "2") (some "-1") none 0 initServerState =
      apiChunk true (some "2") (some "-1") (some DEFAULT_PROMPT) 0
        initServerState :=
  (defaultPrompt_shared true (some "2") (some "-1") 0 initServerState).1

theorem getPredictedChunks_skip (inp : PredictInput) (f : PredictiveFetcher)
    (h : (f.frameCounter + 1) % 30 ≠ 0) :
    getPredictedChunks inp f =
      (f.lastPrediction,
       { lastPrediction := f.lastPrediction,
         frameCounter := f.frameCounter + 1 }) := by
  simp [getPredictedChunks, h]

theorem runPredictCalls_early :
    ∀ (inps : List PredictInput) (f : PredictiveFetcher),
      f.lastPrediction = [] → f.frameCounter + inps.length ≤ 29 →
      (runPredictCalls inps f).1 = List.replicate inps.length []
  | [], _, _, _ => rfl
  | i :: rest, f, hlast, hlen => by
    have hlen2 : f.frameCounter + 1 + rest.length ≤ 29 := by
      simp only [List.length_cons] at hlen
      omega
    have hc : (f.frameCounter + 1) % 30 ≠ 0 := by
      rw [Nat.mod_eq_of_lt (by omega)]
      omega
    have hrec := runPredictCalls_early rest
      { lastPrediction := [], frameCounter := f.frameCounter + 1 } rfl hlen2
    simp only [runPredictCalls, getPredictedChunks_skip i f hc, hrec, hlast,
      List.length_cons, List.replicate_succ]

/-- C10: for every call sequence of length at most 29 from construction
the predictive fetcher returns the empty list regardless of the
controller observations, because the prediction is recomputed only on
every 30th call and the stored prediction starts empty; and on any call
whose incremented counter is not a multiple of 30 the previously stored
prediction is returned unchanged. -/
theorem predictiveFetcher_warmup (inps : List PredictInput)
    (hlen : inps.length ≤ 29) :
    (runPredictCalls inps initFetcher).1 = List.replicate inps.length [] ∧
    (∀ (inp : PredictInput) (f : PredictiveFetcher),
      (f.frameCounter + 1) % 30 ≠ 0 →
      (getPredictedChunks inp f).1 = f.lastPrediction ∧
      ((getPredictedChunks inp f).2).lastPrediction = f.lastPrediction) := by
  constructor
  · exact runPredictCalls_early inps initFetcher rfl
      (by simpa [initFetcher] using hlen)
  · intro inp f h
    rw [getPredictedChunks_skip inp f h]
    exact ⟨rfl, rfl⟩

/-- Witness: 29 standing-still calls all return the empty prediction. -/
theorem predictiveFetcher_warmup_witness :
    (runPredictCalls (List.replicate 29 demoPredictInput) initFetcher).1 =
      List.replicate 29 ([] : List (Int × Int)) := by
  have h := predictiveFetcher_warmup (List.replicate 29 demoPredictInput)
    (by simp)
  simpa using h.1

theorem fadeStep_dist_le (fade target dt : ℚ) (hdt : 0 ≤ dt) :
    |fadeStep fade target dt - fade| ≤ FADE_SPEED * dt := by
  have hf : 0 ≤ FADE_SPEED * dt := mul_nonneg (by norm_num [FADE_SPEED]) hdt
  unfold fadeStep
  split_ifs with h1 h2
  · have hub : min target (fade + FADE_SPEED * dt) ≤ fade + FADE_SPEED * dt :=
      min_le_right _ _
    have hlb : fade ≤ min target (fade + FADE_SPEED * dt) :=
      le_min (le_of_lt h1) (by linarith)
    rw [abs_le]
    constructor <;> linarith
  · have hub : max target (fade - FADE_SPEED * dt) ≤ fade :=
      max_le (le_of_lt h2) (by linarith)
    have hlb : fade - FADE_SPEED * dt ≤ max target (fade - FADE_SPEED * dt) :=
      le_max_right _ _
    rw [abs_le]
    constructor <;> linarith
  · rw [sub_self, abs_zero]
    exact hf

theorem fadeStep_up (fade target dt : ℚ) (hdt : 0 ≤ dt) (h : fade ≤ target) :
    fade ≤ fadeStep fade target dt ∧ fadeStep fade target dt ≤ target := by
  rcases lt_or_eq_of_le h with hlt | heq
  · have hf : 0 ≤ FADE_SPEED * dt := mul_nonneg (by norm_num [FADE_SPEED]) hdt
    unfold fadeStep
    rw [if_pos hlt]
    exact ⟨le_min h (by linarith), min_le_left _ _⟩
  · subst heq
    simp [fadeStep]

theorem fadeStep_down (fade target dt : ℚ) (hdt : 0 ≤ dt) (h : target ≤ fade) :
    target ≤ fadeStep fade target dt ∧ fadeStep fade target dt ≤ fade := by
  rcases lt_or_eq_of_le h with hlt | heq
  · have hf : 0 ≤ FADE_SPEED * dt := mul_nonneg (by norm_num [FADE_SPEED]) hdt
    unfold fadeStep
    rw [if_neg (not_lt.mpr h), if_pos hlt]
    exact ⟨le_max_left _ _, max_le h (by linarith)⟩
  · subst heq
    simp [fadeStep]

/-- C4: in the per-chunk body of ChunkManager.update (run for each
resident, non-loading chunk), a chunk strictly beyond the cached radius
3 is purged; within it, the target fade is 1 at Chebyshev distance at
most the active radius 1 and 0 otherwise, the chunk stays resident, the
fade moves toward the target by at most FADE_SPEED times the elapsed
time without overshooting, and the zone label changes only when the
fade has settled at its bound (within the source's 0.001 settling
threshold).  In particular distance 2 has target fade 0 and stays
resident, and distance 4 is purged. -/
theorem hysteresis_frame (d : Nat) (fade : ℚ) (zone : Zone) (dt : ℚ)
    (hdt : 0 ≤ dt) :
    (ZONE_CACHED < d → updateChunkFrame d fade zone dt = FrameResult.purged) ∧
    (d ≤ ZONE_ACTIVE → targetFade d = 1) ∧
    (ZONE_ACTIVE < d → targetFade d = 0) ∧
    (d ≤ ZONE_CACHED → ∃ f1 z1 v,
      updateChunkFrame d fade zone dt = FrameResult.resident f1 z1 v ∧
      |f1 - fade| ≤ FADE_SPEED * dt ∧
      (fade ≤ targetFade d → fade ≤ f1 ∧ f1 ≤ targetFade d) ∧
      (targetFade d ≤ fade → targetFade d ≤ f1 ∧ f1 ≤ fade) ∧
      (z1 ≠ zone → (999 : ℚ)/1000 ≤ f1 ∨ f1 ≤ (1 : ℚ)/1000)) ∧
    targetFade 2 = 0 ∧
    updateChunkFrame 4 fade zone dt = FrameResult.purged ∧
    updateChunkFrame 2 fade zone dt ≠ FrameResult.purged := by
  refine ⟨?_, ?_, ?_, ?_, ?_, ?_, ?_⟩
  · intro hd
    unfold updateChunkFrame
    rw [if_pos hd]
  · intro hd
    unfold targetFade
    rw [if_pos hd]
  · intro hd
    unfold targetFade
    rw [if_neg (not_le.mpr hd)]
  · intro hd
    refine ⟨fadeStep fade (targetFade d) dt,
      (if (999 : ℚ)/1000 ≤ fadeStep fade (targetFade d) dt then Zone.active
       else if fadeStep fade (targetFade d) dt ≤ (1 : ℚ)/1000 then Zone.cached
       else zone),
      decide ((1 : ℚ)/1000 < fadeStep fade (targetFade d) dt), ?_, ?_, ?_, ?_, ?_⟩
    · unfold updateChunkFrame
      rw [if_neg (not_lt.mpr hd)]
    · exact fadeStep_dist_le fade (targetFade d) dt hdt
    · exact fun h => fadeStep_up fade (targetFade d) dt hdt h
    · exact fun h => fadeStep_down fade (targetFade d) dt hdt h
    · intro hz
      by_cases h1 : (999 : ℚ)/1000 ≤ fadeStep fade (targetFade d) dt
      · exact Or.inl h1
      · by_cases h2 : fadeStep fade (targetFade d) dt ≤ (1 : ℚ)/1000
        · exact Or.inr h2
        · rw [if_neg h1, if_neg h2] at hz
          exact absurd rfl hz
  · unfold targetFade ZONE_ACTIVE
    norm_num
  · unfold updateChunkFrame ZONE_CACHED
    norm_num
  · unfold updateChunkFrame ZONE_CACHED
    norm_num
    intro h
    exact FrameResult.noConfusion h

/-- Witness: with fade one half, zone cached and a hundredth of a
second elapsed, distance 2 has target fade 0 and stays resident while
distance 4 purges. -/
theorem hysteresis_frame_witness :
    targetFade 2 = 0 ∧
    updateChunkFrame 4 (1/2) Zone.cached (1/100) = FrameResult.purged ∧
    updateChunkFrame 2 (1/2) Zone.cached (1/100) ≠ FrameResult.purged := by
  have h := hysteresis_frame 2 (1/2) Zone.cached (1/100) (by norm_num)
  exact ⟨h.2.2.2.2.1, h.2.2.2.2.2.1, h.2.2.2.2.2.2⟩

theorem dedupeGo_mem :
    ∀ (l seen : List (Int × Int)) (c : Int × Int),
      c ∈ dedupeGo l seen ↔ (c ∈ l ∧ c ∉ seen)
  | [], seen, c => by simp [dedupeGo]
  | a :: rest, seen, c => by
    by_cases ha : a ∈ seen
    · simp only [dedupeGo, if_pos ha, dedupeGo_mem rest seen c, List.mem_cons]
      constructor
      · exact fun h => ⟨Or.inr h.1, h.2⟩
      · rintro ⟨rfl | h1, h2⟩
        · exact absurd ha h2
        · exact ⟨h1, h2⟩
    · simp only [dedupeGo, if_neg ha, List.mem_cons,
        dedupeGo_mem rest (a :: seen) c]
      constructor
      · rintro (rfl | ⟨h1, h2⟩)
        · exact ⟨Or.inl rfl, ha⟩
        · exact ⟨Or.inr h1, fun hc => h2 (Or.inr hc)⟩
      · rintro ⟨hca | h1, h2⟩
        · exact Or.inl hca
        · by_cases hceq : c = a
          · exact Or.inl hceq
          · refine Or.inr ⟨h1, fun hc => ?_⟩
            rcases hc with h3 | h3
            · exact hceq h3
            · exact h2 h3

theorem dedupeGo_nodup :
    ∀ (l seen : List (Int × Int)), (dedupeGo l seen).Nodup
  | [], _ => List.nodup_nil
  | a :: rest, seen => by
    by_cases ha : a ∈ seen
    · simp only [dedupeGo, if_pos ha]
      exact dedupeGo_nodup rest seen
    · simp only [dedupeGo, if_neg ha]
      refine List.nodup_cons.mpr ⟨?_, dedupeGo_nodup rest (a :: seen)⟩
      intro hmem
      have h := (dedupeGo_mem rest (a :: seen) a).mp hmem
      exact h.2 (List.mem_cons_self a seen)

/-- C8: getPredictedChunks recomputation is a pure function of the
speed, the forward direction and the chunk coordinates.  Below the 0.1
speed threshold it returns exactly the four cardinal neighbors;
otherwise its reach is ceil(speed × latency ÷ tile size) clamped into
[MIN_PREDICT_DISTANCE, MAX_PREDICT_DISTANCE], the returned list is
duplicate-free, and its members are exactly the coordinates generated
by walking steps 1..reach along the forward direction with the
3-wide perpendicular spread. -/
theorem prediction_structure (speed fx fz : ℚ) (cx cy : Int) :
    (speed < 1/10 → computePrediction speed fx fz cx cy =
      [(cx + 1, cy), (cx - 1, cy), (cx, cy + 1), (cx, cy - 1)]) ∧
    (¬ speed < 1/10 →
      (computePrediction speed fx fz cx cy).Nodup ∧
      MIN_PREDICT_DISTANCE ≤ clampedReach speed ∧
      clampedReach speed ≤ MAX_PREDICT_DISTANCE ∧
      (∀ c : Int × Int, c ∈ computePrediction speed fx fz cx cy ↔
        ∃ n : Nat, n < (clampedReach speed).toNat ∧
          ∃ sp ∈ spreadList, c = predCoord fx fz cx cy (n + 1) sp)) := by
  constructor
  · intro h
    unfold computePrediction
    rw [if_pos h]
  · intro h
    have heq : computePrediction speed fx fz cx cy =
        dedupeGo (predRaw speed fx fz cx cy) [] := by
      unfold computePrediction
      rw [if_neg h]
    have hb : MIN_PREDICT_DISTANCE ≤ clampedReach speed ∧
        clampedReach speed ≤ MAX_PREDICT_DISTANCE := by
      unfold clampedReach
      exact ⟨le_max_left _ _,
        max_le (by norm_num [MIN_PREDICT_DISTANCE, MAX_PREDICT_DISTANCE])
          (min_le_left _ _)⟩
    refine ⟨by rw [heq]; exact dedupeGo_nodup _ _, hb.1, hb.2, ?_⟩
    intro c
    rw [heq, dedupeGo_mem]
    simp only [List.not_mem_nil, not_false_eq_true, and_true]
    unfold predRaw
    rw [List.mem_flatMap]
    constructor
    · rintro ⟨step, hstep, hc⟩
      rcases List.mem_map.mp hstep with ⟨n, hn, rfl⟩
      rcases List.mem_map.mp hc with ⟨sp, hsp, rfl⟩
      exact ⟨n, List.mem_range.mp hn, sp, hsp, rfl⟩
    · rintro ⟨n, hn, sp, hsp, rfl⟩
      exact ⟨n + 1, List.mem_map.mpr ⟨n, List.mem_range.mpr hn, rfl⟩,
             List.mem_map.mpr ⟨sp, hsp, rfl⟩⟩

/-- Witness: standing still at the origin yields exactly the four
cardinal neighbors, and a moving prediction is duplicate-free. -/
theorem prediction_structure_witness :
    computePrediction 0 0 (-1) 0 0 = [(1, 0), (-1, 0), (0, 1), (0, -1)] ∧
    (computePrediction 1 1 0 0 0).Nodup :=
  ⟨(prediction_structure 0 0 (-1) 0 0).1 (by norm_num),
   ((prediction_structure 1 1 0 0 0).2 (by norm_num)).1⟩

theorem edgeSearch_cons_none (store : Store)
    (extract : String → EdgeDir → Option String) (x y : Int) (prompt : String)
    (dx dy : Int) (dir : EdgeDir) (rest : List (Int × Int × EdgeDir)) :
    edgeSearch store extract x y prompt ((dx, dy, dir) :: rest) = none ↔
      (seedFails store extract { x := x + dx, y := y + dy, prompt := prompt } dir ∧
       edgeSearch store extract x y prompt rest = none) := by
  rcases hnb : dbGetNeighbor store { x := x + dx, y := y + dy, prompt := prompt }
    with _ | nb
  · have hsf : seedFails store extract
        { x := x + dx, y := y + dy, prompt := prompt } dir := by
      unfold seedFails
      intro nb2 hnb2
      rw [hnb] at hnb2
      exact Option.noConfusion hnb2
    simp only [edgeSearch, hnb]
    simp [hsf]
  · rcases hurl : nb.pano_url with _ | url
    · have hsf : seedFails store extract
          { x := x + dx, y := y + dy, prompt := prompt } dir := by
        unfold seedFails
        intro nb2 hnb2 url2 hurl2 hne b hb
        rw [hnb] at hnb2
        injection hnb2 with h
        subst h
        rw [hurl] at hurl2
        exact Option.noConfusion hurl2
      simp only [edgeSearch, hnb, hurl]
      simp [hsf]
    · by_cases hemp : url = ""
      · subst hemp
        have hsf : seedFails store extract
            { x := x + dx, y := y + dy, prompt := prompt } dir := by
          unfold seedFails
          intro nb2 hnb2 url2 hurl2 hne b hb
          rw [hnb] at hnb2
          injection hnb2 with h
          subst h
          rw [hurl] at hurl2
          injection hurl2 with h2
          exact absurd h2.symm hne
        simp only [edgeSearch, hnb, hurl, if_pos rfl]
        simp [hsf]
      · rcases hex : extract url dir with _ | b
        · have hsf : seedFails store extract
              { x := x + dx, y := y + dy, prompt := prompt } dir := by
            unfold seedFails
            intro nb2 hnb2 url2 hurl2 hne b hb
            rw [hnb] at hnb2
            injection hnb2 with h
            subst h
            rw [hurl] at hurl2
            injection hurl2 with h2
            subst h2
            rw [hex] at hb
            exact Option.noConfusion hb
          simp only [edgeSearch, hnb, hurl, if_neg hemp, hex]
          simp [hsf]
        · by_cases hbe : b = ""
          · subst hbe
            have hsf : seedFails store extract
                { x := x + dx, y := y + dy, prompt := prompt } dir := by
              unfold seedFails
              intro nb2 hnb2 url2 hurl2 hne b2 hb2
              rw [hnb] at hnb2
              injection hnb2 with h
              subst h
              rw [hurl] at hurl2
              injection hurl2 with h2
              subst h2
              rw [hex] at hb2
              injection hb2 with h3
              exact h3.symm
            simp only [edgeSearch, hnb, hurl, if_neg hemp, hex, if_pos rfl]
            simp [hsf]
          · simp only [edgeSearch, hnb, hurl, if_neg hemp, hex, if_neg hbe]
            constructor
            · intro hcontra
              exact Option.noConfusion hcontra
            · rintro ⟨hsf, _⟩
              have hb := hsf nb hnb url hurl hemp b hex
              exact absurd hb hbe

theorem edgeSearch_none_iff (store : Store)
    (extract : String → EdgeDir → Option String) (x y : Int) (prompt : String) :
    ∀ offs : List (Int × Int × EdgeDir),
      edgeSearch store extract x y prompt offs = none ↔
        ∀ o ∈ offs, seedFails store extract
          { x := x + o.1, y := y + o.2.1, prompt := prompt } o.2.2
  | [] => by simp [edgeSearch]
  | (dx, dy, dir) :: rest => by
    rw [edgeSearch_cons_none store extract x y prompt dx dy dir rest,
      edgeSearch_none_iff store extract x y prompt rest]
    simp [List.forall_mem_cons]

/-- C5 (amended): continuity seeding probes the four axis-aligned
neighbors in the fixed order west, east, south, north; the crop regions
are the far quarter of the width for a west neighbor, the near quarter
for an east neighbor, the near 30 percent of the height for a south
neighbor and the far 30 percent for a north neighbor; when the west
neighbor has a completed record with a panorama and its extraction
succeeds, its strip is used; the search itself never fails — an
extraction failure merely skips to the next neighbor in order, and the
result is no seed exactly when every neighbor candidate fails. -/
theorem continuitySeed_amended (store : Store)
    (extract : String → EdgeDir → Option String) (x y : Int) (prompt : String) :
    (∀ w h : Nat,
      extractRegion EdgeDir.left w h =
        { left := 3 * w / 4, top := 0, width := w - 3 * w / 4, height := h } ∧
      (extractRegion EdgeDir.left w h).left +
        (extractRegion EdgeDir.left w h).width = w ∧
      extractRegion EdgeDir.right w h =
        { left := 0, top := 0, width := w / 4, height := h } ∧
      extractRegion EdgeDir.below w h =
        { left := 0, top := 0, width := w, height := 3 * h / 10 } ∧
      extractRegion EdgeDir.above w h =
        { left := 0, top := 7 * h / 10, width := w, height := h - 7 * h / 10 } ∧
      (extractRegion EdgeDir.above w h).top +
        (extractRegion EdgeDir.above w h).height = h) ∧
    (∀ (nb : ChunkRow) (url b64 : String),
      dbGetNeighbor store { x := x - 1, y := y, prompt := prompt } = some nb →
      nb.pano_url = some url → url ≠ "" →
      extract url EdgeDir.left = some b64 → b64 ≠ "" →
      getEdgeImageForChunk store extract x y prompt = some b64) ∧
    (getEdgeImageForChunk store extract x y prompt = none ↔
      ∀ o ∈ NEIGHBOR_OFFSETS, seedFails store extract
        { x := x + o.1, y := y + o.2.1, prompt := prompt } o.2.2) := by
  refine ⟨?_, ?_, ?_⟩
  · intro w h
    refine ⟨rfl, ?_, rfl, rfl, rfl, ?_⟩
    · show 3 * w / 4 + (w - 3 * w / 4) = w
      omega
    · show 7 * h / 10 + (h - 7 * h / 10) = h
      omega
  · intro nb url b64 hnb hurl hune hex hbne
    have hkey : ({ x := x + (-1 : Int), y := y + (0 : Int), prompt := prompt } :
        ChunkId) = { x := x - 1, y := y, prompt := prompt } := by
      have h1 : x + (-1 : Int) = x - 1 := by ring
      have h2 : y + (0 : Int) = y := by ring
      rw [h1, h2]
    show edgeSearch store extract x y prompt NEIGHBOR_OFFSETS = some b64
    unfold NEIGHBOR_OFFSETS
    simp only [edgeSearch, hkey, hnb, hurl, if_neg hune, hex, if_neg hbne]
  · exact edgeSearch_none_iff store extract x y prompt NEIGHBOR_OFFSETS

/-- Witness: for target (2, -1) the completed west neighbor (1, -1)
with panorama is probed first and its successfully extracted strip is
the seed. -/
theorem continuitySeed_amended_witness :
    getEdgeImageForChunk seedDemoStore seedDemoExtractWest 2 (-1) "P" =
      some "stripW" :=
  (continuitySeed_amended seedDemoStore seedDemoExtractWest 2 (-1) "P").2.1
    { status := ChunkStatus.completed, operation_id := none, world_id := none,
      spz_path := none, pano_url := some "panoW" }
    "panoW" "stripW" (by decide) rfl (by decide) (by decide) (by decide)

/-- C5 counterexample: the west neighbor (1, -1) of (2, -1) is the
first completed record with a panorama, its extraction fails, and yet
the seeding does not yield "no seed": it falls through and returns the
east neighbor's strip. -/
theorem continuitySeed_counterexample :
    dbGetNeighbor seedDemoStore { x := 1, y := -1, prompt := "P" } =
      some { status := ChunkStatus.completed, operation_id := none,
             world_id := none, spz_path := none, pano_url := some "panoW" } ∧
    seedDemoExtract "panoW" EdgeDir.left = none ∧
    getEdgeImageForChunk seedDemoStore seedDemoExtract 2 (-1) "P" =
      some "stripE" := by
  refine ⟨by decide, by decide, by decide⟩

/-- C6 (amended): changePrompt purges all client-local chunk objects,
pending loads and failure bookkeeping and installs the new prompt; when
the client is not billing-halted the server-side store is untouched;
when it is halted the switch issues clear-error, whose only store
effect is to delete the billing_error rows — rows of any other status,
in particular completed chunks of the old prompt, always survive, and
no row is ever modified. -/
theorem changePrompt_amended (m : ChunkManagerState) (srv : ServerState)
    (p : String) :
    (changePrompt m srv p).1.chunks = [] ∧
    (changePrompt m srv p).1.pendingLoads = [] ∧
    (changePrompt m srv p).1.failedLoads = [] ∧
    (changePrompt m srv p).1.prompt = p ∧
    (m.billingHalted = false → (changePrompt m srv p).2 = srv) ∧
    (m.billingHalted = true → (changePrompt m srv p).2 = clearError srv) ∧
    (∀ (k : ChunkId) (r : ChunkRow), (k, r) ∈ srv.store →
      r.status ≠ ChunkStatus.billing_error →
      (k, r) ∈ (changePrompt m srv p).2.store) ∧
    (∀ (k : ChunkId) (r : ChunkRow), (k, r) ∈ (changePrompt m srv p).2.store →
      (k, r) ∈ srv.store) := by
  cases hb : m.billingHalted with
  | false =>
    have hcp : changePrompt m srv p = ({ purgeAll m with prompt := p }, srv) := by
      simp [changePrompt, hb]
    rw [hcp]
    refine ⟨rfl, rfl, rfl, rfl, fun _ => rfl, fun h => Bool.noConfusion h, ?_, ?_⟩
    · exact fun k r h _ => h
    · exact fun k r h => h
  | true =>
    have hcp : changePrompt m srv p =
        ({ { purgeAll m with prompt := p } with billingHalted := false },
         clearError srv) := by
      simp [changePrompt, hb]
    rw [hcp]
    refine ⟨rfl, rfl, rfl, rfl, fun h => Bool.noConfusion h, fun _ => rfl, ?_, ?_⟩
    · intro k r hmem hstatus
      cases hae : srv.apiError with
      | none => simpa [clearError, hae] using hmem
      | some e =>
        simp only [clearError, hae]
        exact (deleteBillingRows_mem k r srv.store).mpr ⟨hmem, hstatus⟩
    · intro k r hmem
      cases hae : srv.apiError with
      | none => simpa [clearError, hae] using hmem
      | some e =>
        simp only [clearError, hae] at hmem
        exact ((deleteBillingRows_mem k r srv.store).mp hmem).1

/-- Witness: a prompt switch on a non-halted client purges the local
chunk map and leaves the server state untouched. -/
theorem changePrompt_amended_witness :
    (changePrompt quietClient haltedServer "new").1.chunks = [] ∧
    (changePrompt quietClient haltedServer "new").2 = haltedServer := by
  have h := changePrompt_amended quietClient haltedServer "new"
  exact ⟨h.1, h.2.2.2.2.1 rfl⟩

/-- C6 counterexample: switching prompts on a billing-halted client
issues clear-error, which deletes the billing_error row (0, 0, "old")
from the server-side store — the chunk store is changed as a
consequence of a prompt switch (only the completed row survives). -/
theorem changePrompt_counterexample :
    (changePrompt haltedClient haltedServer "new").2.store ≠
      haltedServer.store ∧
    (changePrompt haltedClient haltedServer "new").2.store =
      [({ x := 1, y := 0, prompt := "old" },
        { status := ChunkStatus.completed, operation_id := none,
          world_id := none, spz_path := some "/chunks/a.spz",
          pano_url := none })] := by
  refine ⟨by decide, by decide⟩

end WorldGrid
